import Mathlib

/-!
Verification of the `rustricks` shared-cell demo (`src/lib.rs`).

The program wraps a value in `UnsafeShared<T>` (an `UnsafeCell<T>` owner),
hands out raw-pointer views (`borrow`, `borrow_mut`) and a self-standing
handle (`UnsafeRef`, created by `as_ref`) whose `Deref`/`DerefMut` go to the
same underlying storage, and whose `Drop` prints the handle's own address.
`main` constructs the cell with `NonCopyBool(false)`, writes
`NonCopyBool(true)` through a transient handle, then reads and prints the
value through a second transient handle.

The embedding models the single-threaded heap as a total map from pointers
to values, Rust references and raw pointers as locations in that map, and
console output as a list of printed lines threaded through a `State`.
-/

namespace Rustricks

/-- `pub fn mv<T>(x: T) -> T { x }` — "Forces a move." -/
def mv {α : Type} (x : α) : α := x

/-- Machine addresses, as used by the raw pointers `*mut T` in the source. -/
abbrev Ptr := Nat

/-- The fragment of process memory holding values of type `α`.  In the
program the only allocation of type `α` is the cell's inner value, but the
model keeps a total map so that writes are genuine store updates. -/
def Mem (α : Type) := Ptr → α

/-- Reading through a reference / raw pointer (`&*p`, `*p`). -/
def readLoc {α : Type} (m : Mem α) (p : Ptr) : α := m p

/-- Writing through a mutable reference / raw pointer (`*p = v`). -/
def writeLoc {α : Type} (m : Mem α) (p : Ptr) (v : α) : Mem α :=
  fun q => if q = p then v else m q

/-- `#[derive(Debug)] struct NonCopyBool(bool);` -/
structure NonCopyBool where
  val : Bool
deriving DecidableEq, Repr

/-- The derived `Debug` rendering of `NonCopyBool`, as printed by
`println!("{:?}", ...)`: `NonCopyBool(true)` / `NonCopyBool(false)`. -/
def NonCopyBool.debugFmt (b : NonCopyBool) : String :=
  "NonCopyBool(" ++ (if b.val then "true" else "false") ++ ")"

/-- `std::cell::UnsafeCell<T>`: the owner of the value; `get` exposes the
raw address of the wrapped value.  In the memory model the cell is
represented by that address. -/
structure UnsafeCell (α : Type) where
  addr : Ptr

/-- `UnsafeCell::get(&self) -> *mut T`: the address of the wrapped value. -/
def UnsafeCell.get {α : Type} (c : UnsafeCell α) : Ptr := c.addr

/-- `struct UnsafeShared<T> { inner: UnsafeCell<T> }` -/
structure UnsafeShared (α : Type) where
  inner : UnsafeCell α

/-- `struct UnsafeRef<'a, T> { ptr: *mut T, marker: PhantomData<&'a mut T> }`.
`PhantomData` is zero-sized, so the runtime content is just `ptr`; the
extra `selfAddr` field models the runtime address of the handle value
itself, which is what `println!("{:p}", self)` prints in `Drop`.  The
lifetime `'a` has no runtime content and is erased by the embedding. -/
structure UnsafeRef (α : Type) where
  ptr : Ptr
  selfAddr : Ptr

/-- `UnsafeRef::new(ptr)` (the address where the handle itself ends up
living is supplied by the surrounding execution). -/
def UnsafeRef.new {α : Type} (p : Ptr) (selfAddr : Ptr) : UnsafeRef α :=
  ⟨p, selfAddr⟩

/-- `Deref for UnsafeRef`: `&*self.ptr` — the location read through. -/
def UnsafeRef.deref {α : Type} (r : UnsafeRef α) : Ptr := r.ptr

/-- `DerefMut for UnsafeRef`: `&mut *self.ptr` — the location written
through. -/
def UnsafeRef.deref_mut {α : Type} (r : UnsafeRef α) : Ptr := r.ptr

/-- `UnsafeShared::new(value)`: wraps `value` in a fresh `UnsafeCell`.  In
the memory model the allocator places the inner value at `addr`, so the
constructor returns the cell together with the updated memory. -/
def UnsafeShared.new {α : Type} (value : α) (addr : Ptr) (m : Mem α) :
    UnsafeShared α × Mem α :=
  (⟨⟨addr⟩⟩, writeLoc m addr value)

/-- `UnsafeShared::borrow_mut(&self) -> &mut T`: `&mut *self.inner.get()`,
i.e. a mutable reference to the location `inner.get()`. -/
def UnsafeShared.borrow_mut {α : Type} (c : UnsafeShared α) : Ptr :=
  c.inner.get

/-- `UnsafeShared::borrow(&self) -> &T`: `&*self.inner.get()`, i.e. an
immutable reference to the location `inner.get()`. -/
def UnsafeShared.borrow {α : Type} (c : UnsafeShared α) : Ptr :=
  c.inner.get

/-- `UnsafeShared::as_ref<'a>(&self) -> UnsafeRef<'a, T>`:
`UnsafeRef::new(self.inner.get())`. -/
def UnsafeShared.as_ref {α : Type} (c : UnsafeShared α) (selfAddr : Ptr) :
    UnsafeRef α :=
  UnsafeRef.new c.inner.get selfAddr

/-- `{:p}` pointer formatting: lower-case hex with a `0x` prefix. -/
def formatPtr (p : Ptr) : String :=
  "0x" ++ String.mk (Nat.toDigits 16 p)

/-- A console line that is an address-formatted string: `0x` followed by
the digits of the address. -/
def addrFormatted (s : String) : Prop := ∃ t, s = "0x" ++ t

/-- Program state: the memory and the console output emitted so far. -/
structure State (α : Type) where
  mem : Mem α
  output : List String

/-- `println!` of one line. -/
def printLine {α : Type} (s : State α) (line : String) : State α :=
  { s with output := s.output ++ [line] }

/-- `Drop for UnsafeRef`: `println!("{:p}", self)` — appends the
address-formatted line for the handle's own address; memory is untouched. -/
def UnsafeRef.dropRun {α : Type} (r : UnsafeRef α) (s : State α) : State α :=
  printLine s (formatPtr r.selfAddr)

/-- `fn main()`.  `cellAddr` is where the allocator places the cell's inner
value, `h1Addr` / `h2Addr` are where the two temporary handles live (the
addresses `{:p}` prints), and `m0` is the initial memory.  Each
`flag.as_ref()` temporary is dropped at the end of its statement, after the
statement's own effect. -/
def mainRun (cellAddr h1Addr h2Addr : Ptr) (m0 : Mem NonCopyBool) :
    State NonCopyBool :=
  -- let flag = UnsafeShared::new(NonCopyBool(false));
  let alloc := UnsafeShared.new ⟨false⟩ cellAddr m0
  let flag := alloc.1
  -- c1(): *flag.as_ref() = NonCopyBool(true); then the temporary drops
  let h1 := flag.as_ref h1Addr
  let s1 : State NonCopyBool := ⟨writeLoc alloc.2 h1.deref_mut ⟨true⟩, []⟩
  let s2 := h1.dropRun s1
  -- c2(): println!("{:?}", *flag.as_ref()); then the temporary drops
  let h2 := flag.as_ref h2Addr
  let s3 := printLine s2 (readLoc s2.mem h2.deref).debugFmt
  h2.dropRun s3

/-- The three access paths to the cell's storage: the direct views
`borrow_mut` / `borrow`, and dereferencing a handle from `as_ref`. -/
inductive AccessPath where
  | borrowMut
  | borrowImm
  | viaHandle (selfAddr : Ptr)

/-- The storage location each access path resolves to. -/
def AccessPath.loc {α : Type} (c : UnsafeShared α) : AccessPath → Ptr
  | .borrowMut => c.borrow_mut
  | .borrowImm => c.borrow
  | .viaHandle a => (c.as_ref a).deref

/-- Cell operations used by callers: writes and reads through the direct
views and through transient handles (each handle dropping at the end of
the operation, as temporaries do). -/
inductive Op (α : Type) where
  | writeBorrowMut (v : α)
  | readBorrow
  | writeHandle (selfAddr : Ptr) (v : α)
  | readHandle (selfAddr : Ptr)

/-- Total semantics of one operation.  No branch can fail. -/
def execOp {α : Type} (c : UnsafeShared α) (s : State α) : Op α → State α
  | .writeBorrowMut v => { s with mem := writeLoc s.mem c.borrow_mut v }
  | .readBorrow => s
  | .writeHandle a v =>
      let h := c.as_ref a
      h.dropRun { s with mem := writeLoc s.mem h.deref_mut v }
  | .readHandle a =>
      let h := c.as_ref a
      h.dropRun s

/-- Running a sequence of operations. -/
def run {α : Type} (c : UnsafeShared α) : List (Op α) → State α → State α
  | [], s => s
  | op :: ops, s => run c ops (execOp c s op)

/-- `UnsafeShared::new` lifted into an error monad.  The Rust signature is
`fn new(value: T) -> Self`: there is no `Result`, no `panic!` and no other
error channel, so the lifted constructor always succeeds. -/
def UnsafeShared.newE {α : Type} (value : α) (addr : Ptr) (m : Mem α) :
    Except String (UnsafeShared α × Mem α) :=
  Except.ok (⟨⟨addr⟩⟩, writeLoc m addr value)

/-- `borrow_mut` lifted into an error monad: `fn borrow_mut(&self) -> &mut T`
returns a plain reference, with no error path. -/
def UnsafeShared.borrow_mutE {α : Type} (c : UnsafeShared α) :
    Except String Ptr :=
  Except.ok c.inner.get

/-- `borrow` lifted into an error monad: `fn borrow(&self) -> &T` returns a
plain reference, with no error path. -/
def UnsafeShared.borrowE {α : Type} (c : UnsafeShared α) :
    Except String Ptr :=
  Except.ok c.inner.get

/-- `as_ref` lifted into an error monad: `fn as_ref<'a>(&self) ->
UnsafeRef<'a, T>` returns a plain handle, with no error path. -/
def UnsafeShared.as_refE {α : Type} (c : UnsafeShared α) (selfAddr : Ptr) :
    Except String (UnsafeRef α) :=
  Except.ok (UnsafeRef.new c.inner.get selfAddr)

/-- One operation lifted into an error monad: every branch is the
translation of source code that returns plain values. -/
def execOpE {α : Type} (c : UnsafeShared α) (s : State α) :
    Op α → Except String (State α)
  | .writeBorrowMut v => Except.ok { s with mem := writeLoc s.mem c.borrow_mut v }
  | .readBorrow => Except.ok s
  | .writeHandle a v =>
      let h := c.as_ref a
      Except.ok (h.dropRun { s with mem := writeLoc s.mem h.deref_mut v })
  | .readHandle a =>
      let h := c.as_ref a
      Except.ok (h.dropRun s)

/-- Running a sequence of operations in the error monad. -/
def runE {α : Type} (c : UnsafeShared α) :
    List (Op α) → State α → Except String (State α)
  | [], s => Except.ok s
  | op :: ops, s => do
      let s1 ← execOpE c s op
      runE c ops s1

/-- C9: the public function `mv` returns exactly its argument — it is the
identity function. -/
theorem C9_mv_identity {α : Type} (x : α) : mv x = x := rfl

/-- C1: a value `V` written into the cell through a mutable view (either
`borrow_mut` or a handle's `deref_mut`), with the handle then fully
released (dropped), is returned exactly by a subsequent read through the
immutable view `borrow` — no staleness, no corruption, under sequential
execution. -/
theorem C1_write_release_read {α : Type} (m : Mem α) (c : UnsafeShared α)
    (V : α) (hAddr : Ptr) (out : List String) :
    readLoc (writeLoc m c.borrow_mut V) c.borrow = V ∧
    readLoc ((c.as_ref hAddr).dropRun
      ⟨writeLoc m (c.as_ref hAddr).deref_mut V, out⟩).mem c.borrow = V := by
  refine ⟨?_, ?_⟩ <;>
    simp [readLoc, writeLoc, UnsafeShared.borrow, UnsafeShared.borrow_mut,
      UnsafeShared.as_ref, UnsafeRef.deref_mut, UnsafeRef.new,
      UnsafeRef.dropRun, printLine, UnsafeCell.get]

/-- C2 counterexample: the program never emits the console line `"true"`;
the read step's `println!("{:?}", ...)` emits the derived `Debug`
rendering `"NonCopyBool(true)"` instead (shown here at cell address 0,
handle addresses 1 and 2, initial memory all `NonCopyBool(false)`). -/
theorem C2_counterexample :
    "true" ∉ (mainRun 0 1 2 (fun _ => ⟨false⟩)).output := by decide

/-- C2 (amended): in the concrete scenario construct(false) → write(true)
via a handle → handle released → read via a new handle, the read observes
`NonCopyBool(true)` and the read step emits the line
`"NonCopyBool(true)"` (the `Debug` rendering whose payload prints as
`true`), for every memory layout and initial memory. -/
theorem C2_read_observes_true (cellAddr h1Addr h2Addr : Ptr)
    (m0 : Mem NonCopyBool) :
    readLoc (mainRun cellAddr h1Addr h2Addr m0).mem cellAddr = ⟨true⟩ ∧
    (mainRun cellAddr h1Addr h2Addr m0).output[1]? =
      some "NonCopyBool(true)" := by
  refine ⟨?_, ?_⟩ <;>
    simp [mainRun, readLoc, writeLoc, UnsafeShared.new, UnsafeShared.as_ref,
      UnsafeRef.new, UnsafeRef.deref, UnsafeRef.deref_mut, UnsafeRef.dropRun,
      printLine, UnsafeCell.get, NonCopyBool.debugFmt]

/-- C3: `borrow`, `borrow_mut` and the dereference of a handle obtained
from `as_ref` all resolve to the same underlying storage location, and a
write through any one of the three access paths is observed by a
subsequent read through any other. -/
theorem C3_same_storage {α : Type} (c : UnsafeShared α) (p q : AccessPath)
    (m : Mem α) (V : α) :
    AccessPath.loc c p = AccessPath.loc c q ∧
    readLoc (writeLoc m (AccessPath.loc c p) V) (AccessPath.loc c q) = V := by
  cases p <;> cases q <;>
    simp [AccessPath.loc, readLoc, writeLoc, UnsafeShared.borrow,
      UnsafeShared.borrow_mut, UnsafeShared.as_ref, UnsafeRef.deref,
      UnsafeRef.new, UnsafeCell.get]

/-- C4: dropping a handle appends exactly one line, an address-formatted
string (so it is emitted strictly before any output of a later
operation, which can only append after it); and in `main` the first
handle's drop line does appear strictly before the read step's output. -/
theorem C4_drop_prints_addr_before_next :
    (∀ (α : Type) (r : UnsafeRef α) (s : State α),
        (r.dropRun s).output = s.output ++ [formatPtr r.selfAddr] ∧
        addrFormatted (formatPtr r.selfAddr)) ∧
    (∀ (cellAddr h1Addr h2Addr : Ptr) (m0 : Mem NonCopyBool),
        ∃ rest, (mainRun cellAddr h1Addr h2Addr m0).output =
          formatPtr h1Addr :: "NonCopyBool(true)" :: rest) := by
  constructor
  · exact fun α r s => ⟨rfl, ⟨String.mk (Nat.toDigits 16 r.selfAddr), rfl⟩⟩
  · intro cellAddr h1Addr h2Addr m0
    refine ⟨[formatPtr h2Addr], ?_⟩
    simp [mainRun, readLoc, writeLoc, UnsafeShared.new, UnsafeShared.as_ref,
      UnsafeRef.new, UnsafeRef.deref, UnsafeRef.deref_mut, UnsafeRef.dropRun,
      printLine, UnsafeCell.get, NonCopyBool.debugFmt]

/-- C5 counterexample: two runs of `main` that differ only in where the
temporary handles happen to live in memory print different console
output, because the handle drops print those addresses — so the complete
console output is not identical across every two runs. -/
theorem C5_counterexample :
    (mainRun 0 1 2 (fun _ => ⟨false⟩)).output ≠
      (mainRun 0 3 4 (fun _ => ⟨false⟩)).output := by decide

/-- C5 (amended): the console output of `main` is a deterministic function
of the memory layout — for a fixed placement of the cell and the two
temporary handles it equals `[h1 address, "NonCopyBool(true)", h2
address]` regardless of initial memory contents, so any two runs with the
same layout produce identical output, and the non-address line is the
same in every run. -/
theorem C5_deterministic_per_layout (cellAddr h1Addr h2Addr : Ptr)
    (m0 m1 : Mem NonCopyBool) :
    (mainRun cellAddr h1Addr h2Addr m0).output =
      [formatPtr h1Addr, "NonCopyBool(true)", formatPtr h2Addr] ∧
    (mainRun cellAddr h1Addr h2Addr m0).output =
      (mainRun cellAddr h1Addr h2Addr m1).output := by
  refine ⟨?_, ?_⟩ <;>
    simp [mainRun, readLoc, writeLoc, UnsafeShared.new, UnsafeShared.as_ref,
      UnsafeRef.new, UnsafeRef.deref, UnsafeRef.deref_mut, UnsafeRef.dropRun,
      printLine, UnsafeCell.get, NonCopyBool.debugFmt]

/-- C6: constructing an `UnsafeShared` with value `X` and obtaining no
view leaves the contained value unchanged at `X` at the moment the cell
is dropped — construction alone is a no-op on the value. -/
theorem C6_construct_is_noop {α : Type} (X : α) (addr : Ptr) (m : Mem α) :
    readLoc (UnsafeShared.new X addr m).2
      (UnsafeShared.new X addr m).1.inner.get = X := by
  simp [readLoc, writeLoc, UnsafeShared.new, UnsafeCell.get]

/-- C7: no operation of the cell — construction, the mutable view, the
immutable view, obtaining a handle, or any sequence of accesses — ever
signals a runtime error through the error channel: each lifted operation
returns `Except.ok` of what the total semantics computes, for every input
and every sequence of calls. -/
theorem C7_no_error_channel {α : Type} (v : α) (addr selfAddr : Ptr)
    (m : Mem α) (c : UnsafeShared α) (ops : List (Op α)) (s : State α) :
    UnsafeShared.newE v addr m = Except.ok (UnsafeShared.new v addr m) ∧
    c.borrow_mutE = Except.ok c.borrow_mut ∧
    c.borrowE = Except.ok c.borrow ∧
    c.as_refE selfAddr = Except.ok (c.as_ref selfAddr) ∧
    runE c ops s = Except.ok (run c ops s) := by
  refine ⟨rfl, rfl, rfl, rfl, ?_⟩
  induction ops generalizing s with
  | nil => rfl
  | cons op ops ih =>
      cases op <;> exact ih _

/-- C10: reading a freshly constructed cell returns the value it was
constructed with — via `borrow`, and equivalently via dereferencing a
fresh handle from `as_ref`. -/
theorem C10_roundtrip_at_construction {α : Type} (v : α) (addr hAddr : Ptr)
    (m : Mem α) :
    readLoc (UnsafeShared.new v addr m).2
      (UnsafeShared.new v addr m).1.borrow = v ∧
    readLoc (UnsafeShared.new v addr m).2
      ((UnsafeShared.new v addr m).1.as_ref hAddr).deref = v := by
  refine ⟨?_, ?_⟩ <;>
    simp [readLoc, writeLoc, UnsafeShared.new, UnsafeShared.borrow,
      UnsafeShared.as_ref, UnsafeRef.new, UnsafeRef.deref, UnsafeCell.get]

end Rustricks
